import Mathlib

/-!
Verification development for the Tricam repository (three-camera collinear
stereo calibration).  The definitions below are a shallow embedding of
`src/tricam/calibration.py`; array blobs produced by the vision library
(camera matrices, distortion coefficients, remap tables, detected corner
arrays, ...) are abstracted as values of a type parameter, and the vision
library itself (OpenCV) is abstracted as an oracle of uninterpreted
functions, since the repository treats it as an external collaborator.
All numeric arithmetic performed by the repository's own code
(the epipolar error accumulation in `check_calibration`) is embedded over ℚ.
-/

namespace Tricam

/-- The three camera sides of the trinocular rig, the keys of the per-side
dicts `{"left": _, "center": _, "right": _}` in the source. -/
inductive Side where
  | left
  | center
  | right
deriving DecidableEq, Repr

/-- A per-side dict with exactly the three keys left/center/right. -/
structure PerSide (γ : Type) where
  left : γ
  center : γ
  right : γ
deriving DecidableEq, Repr

/-- Dict lookup `d[side]`. -/
def PerSide.get {γ : Type} (d : PerSide γ) : Side → γ
  | Side.left => d.left
  | Side.center => d.center
  | Side.right => d.right

/-- Dict update `d[side] = x`. -/
def PerSide.set {γ : Type} (d : PerSide γ) : Side → γ → PerSide γ
  | Side.left, x => { d with left := x }
  | Side.center, x => { d with center := x }
  | Side.right, x => { d with right := x }

/-- List append `d[side].append(x)` for a per-side dict of lists. -/
def PerSide.push {γ : Type} (d : PerSide (List γ)) (s : Side) (x : γ) :
    PerSide (List γ) :=
  d.set s (d.get s ++ [x])

/-- The `StereoCalibration` object of `calibration.py` (lines 65-99): the
fields set by `__init__`, in their `__dict__` insertion order.  `β` is the
type of numeric array blobs; a field holding Python `None` is `none`. -/
structure StereoCalibration (β : Type) where
  cam_mats : PerSide (Option β)
  dist_coefs : PerSide (Option β)
  rot_mat : Option β
  trans_vec : Option β
  e_mat : Option β
  f_mat : Option β
  rect_trans : PerSide (Option β)
  proj_mats : PerSide (Option β)
  disp_to_depth_mat : Option β
  valid_boxes : PerSide (Option β)
  undistortion_map : PerSide (Option β)
  rectification_map : PerSide (Option β)
deriving DecidableEq, Repr

/-- The field values `StereoCalibration.__init__` installs before the
`calibration` / `input_folder` branches run: every slot is `None`. -/
def emptyCalibration (β : Type) : StereoCalibration β where
  cam_mats := ⟨none, none, none⟩
  dist_coefs := ⟨none, none, none⟩
  rot_mat := none
  trans_vec := none
  e_mat := none
  f_mat := none
  rect_trans := ⟨none, none, none⟩
  proj_mats := ⟨none, none, none⟩
  disp_to_depth_mat := none
  valid_boxes := ⟨none, none, none⟩
  undistortion_map := ⟨none, none, none⟩
  rectification_map := ⟨none, none, none⟩

/-- A folder of `*.npy` files: an association list from file name to the
saved value.  `np.save`/`np.load` are modelled as exact persistence of the
stored field value (including a stored `None`). -/
abbrev Folder (β : Type) : Type := List (String × Option β)

/-- `_interact_with_folder(output_folder, 'w')` (lines 49-63, write branch),
unrolled over the fixed `__dict__` of a `StereoCalibration`: dict-valued
fields produce one `{key}_{camera}.npy` file per side in (left, center,
right) order, other fields one `{key}.npy` file, in `__dict__` order. -/
def StereoCalibration.export {β : Type} (c : StereoCalibration β) : Folder β :=
  [("cam_mats_left.npy", c.cam_mats.left),
   ("cam_mats_center.npy", c.cam_mats.center),
   ("cam_mats_right.npy", c.cam_mats.right),
   ("dist_coefs_left.npy", c.dist_coefs.left),
   ("dist_coefs_center.npy", c.dist_coefs.center),
   ("dist_coefs_right.npy", c.dist_coefs.right),
   ("rot_mat.npy", c.rot_mat),
   ("trans_vec.npy", c.trans_vec),
   ("e_mat.npy", c.e_mat),
   ("f_mat.npy", c.f_mat),
   ("rect_trans_left.npy", c.rect_trans.left),
   ("rect_trans_center.npy", c.rect_trans.center),
   ("rect_trans_right.npy", c.rect_trans.right),
   ("proj_mats_left.npy", c.proj_mats.left),
   ("proj_mats_center.npy", c.proj_mats.center),
   ("proj_mats_right.npy", c.proj_mats.right),
   ("disp_to_depth_mat.npy", c.disp_to_depth_mat),
   ("valid_boxes_left.npy", c.valid_boxes.left),
   ("valid_boxes_center.npy", c.valid_boxes.center),
   ("valid_boxes_right.npy", c.valid_boxes.right),
   ("undistortion_map_left.npy", c.undistortion_map.left),
   ("undistortion_map_center.npy", c.undistortion_map.center),
   ("undistortion_map_right.npy", c.undistortion_map.right),
   ("rectification_map_left.npy", c.rectification_map.left),
   ("rectification_map_center.npy", c.rectification_map.center),
   ("rectification_map_right.npy", c.rectification_map.right)]

/-- Read the three per-side files `{key}_{camera}.npy` of one dict-valued
field back from a folder (the `isinstance(item, dict)` branch of the read
action of `_interact_with_folder`). -/
def loadSideDict {β : Type} (f : Folder β) (key : String) :
    Option (PerSide (Option β)) := do
  let l ← f.lookup (key ++ "_left.npy")
  let c ← f.lookup (key ++ "_center.npy")
  let r ← f.lookup (key ++ "_right.npy")
  pure ⟨l, c, r⟩

/-- `_interact_with_folder(input_folder, 'r')` (read branch) /
`StereoCalibration.load`: read every field's file back from the folder;
`np.load` of a missing file fails, hence the `Option` result. -/
def StereoCalibration.loadFolder {β : Type} (f : Folder β) :
    Option (StereoCalibration β) := do
  let cm ← loadSideDict f "cam_mats"
  let dc ← loadSideDict f "dist_coefs"
  let rm ← f.lookup "rot_mat.npy"
  let tv ← f.lookup "trans_vec.npy"
  let em ← f.lookup "e_mat.npy"
  let fm ← f.lookup "f_mat.npy"
  let rt ← loadSideDict f "rect_trans"
  let pm ← loadSideDict f "proj_mats"
  let dd ← f.lookup "disp_to_depth_mat.npy"
  let vb ← loadSideDict f "valid_boxes"
  let um ← loadSideDict f "undistortion_map"
  let rcm ← loadSideDict f "rectification_map"
  pure (StereoCalibration.mk cm dc rm tv em fm rt pm dd vb um rcm)

/-- `StereoCalibration.__init__(calibration, input_folder)` (lines 65-99):
set all fields to their defaults, then if a calibration object is given copy
all of its fields (`_copy_calibration` copies every `__dict__` entry), else
if an input folder is given load from it.  Loading can fail (missing file),
hence the `Option` result. -/
def StereoCalibration.init {β : Type} (calibration : Option (StereoCalibration β))
    (input_folder : Option (Folder β)) : Option (StereoCalibration β) :=
  match calibration with
  | some c => some c
  | none =>
    match input_folder with
    | some f => StereoCalibration.loadFolder f
    | none => some (emptyCalibration β)

/-- The OpenCV interpolation flag `cv2.INTER_NEAREST`. -/
def INTER_NEAREST : ℕ := 0

/-- `StereoCalibration.rectify` (lines 111-122): the loop
`for i, cam in enumerate(("left", "center", "right"))` appending
`cv2.remap(frames[i], undistortion_map[cam], rectification_map[cam],
cv2.INTER_NEAREST)` to `new_frames`.  `remap` is the external OpenCV
primitive; indexing past the end of `frames` or a `None` map makes the call
fail, hence the `Option` result. -/
def rectifyLoop {Image β : Type} (c : StereoCalibration β)
    (remap : Image → β → β → ℕ → Image) (frames : List Image) :
    List (ℕ × Side) → List Image → Option (List Image)
  | [], new_frames => some new_frames
  | (i, cam) :: rest, new_frames => do
    let frame ← frames[i]?
    let map1 ← (c.undistortion_map.get cam)
    let map2 ← (c.rectification_map.get cam)
    rectifyLoop c remap frames rest (new_frames ++ [remap frame map1 map2 INTER_NEAREST])

/-- `StereoCalibration.rectify(frames)`: run the loop over the enumerated
sides starting from an empty `new_frames` list. -/
def StereoCalibration.rectify {Image β : Type} (c : StereoCalibration β)
    (remap : Image → β → β → ℕ → Image) (frames : List Image) :
    Option (List Image) :=
  rectifyLoop c remap frames
    [(0, Side.left), (1, Side.center), (2, Side.right)] []

/-- The synthetic 3D reference pattern built in `StereoCalibrator.__init__`
(lines 168-171): `np.indices((rows, columns)).T.reshape(-1, 2)` scaled by
`square_size`, with a zero third coordinate. -/
def cornerCoordinates (rows columns : ℕ) (square_size : ℚ) :
    List (ℚ × ℚ × ℚ) :=
  (List.range columns).flatMap fun j =>
    (List.range rows).map fun i =>
      ((i : ℚ) * square_size, (j : ℚ) * square_size, 0)

/-- The `StereoCalibrator` object of `calibration.py` (lines 151-179), in
`__dict__` insertion order.  `α` is the type of detected-corner arrays (the
output of `_get_corners` followed by `.reshape(-1, 2)`). -/
structure StereoCalibrator (α : Type) where
  image_count : ℕ
  rows : ℕ
  columns : ℕ
  square_size : ℚ
  image_size : ℕ × ℕ
  corner_coordinates : List (ℚ × ℚ × ℚ)
  object_points : List (List (ℚ × ℚ × ℚ))
  image_points : PerSide (List α)
deriving DecidableEq, Repr

/-- `StereoCalibrator.__init__(rows, columns, square_size, image_size)`. -/
def mkStereoCalibrator (α : Type) (rows columns : ℕ) (square_size : ℚ)
    (image_size : ℕ × ℕ) : StereoCalibrator α where
  image_count := 0
  rows := rows
  columns := columns
  square_size := square_size
  image_size := image_size
  corner_coordinates := cornerCoordinates rows columns square_size
  object_points := []
  image_points := ⟨[], [], []⟩

/-- The `for image in image_group` loop body of `StereoCalibrator.add_corners`
(lines 190-200), for `show_results=False`.  `detect` abstracts `_get_corners`
(`cv2.findChessboardCorners` + `cv2.cornerSubPix`); `none` is the
`ChessboardNotFoundError` raise, which propagates out of the loop with the
store in whatever state it reached (`Except.error` carries that state).
The body appends the found corners to the current `side`'s list, then sets
`side = "center"` and appends the same corners again, then sets
`side = "right"` (the value `side` has at every later iteration) and
increments `image_count`. -/
def addCornersLoop {Image α : Type} (detect : Image → Option α) :
    List Image → Side → StereoCalibrator α →
    Except (StereoCalibrator α) (StereoCalibrator α)
  | [], _, st => Except.ok st
  | image :: rest, side, st =>
    match detect image with
    | none => Except.error st
    | some corners =>
      let st1 := { st with image_points := st.image_points.push side corners }
      let st2 := { st1 with
        image_points := st1.image_points.push Side.center corners }
      let st3 := { st2 with image_count := st2.image_count + 1 }
      addCornersLoop detect rest Side.right st3

/-- `StereoCalibrator.add_corners(image_group)` (lines 181-200): set
`side = "left"`, append `corner_coordinates` to `object_points` (before any
corner detection runs), then run the per-image loop.  A
`ChessboardNotFoundError` from `_get_corners` propagates as `Except.error`
carrying the store state at the moment of the raise. -/
def add_corners {Image α : Type} (st : StereoCalibrator α)
    (detect : Image → Option α) (image_group : List Image) :
    Except (StereoCalibrator α) (StereoCalibrator α) :=
  addCornersLoop detect image_group Side.left
    { st with object_points := st.object_points ++ [st.corner_coordinates] }

/-- One epipolar line `(a, b, c)` as returned by
`cv2.computeCorrespondEpilines` (a row `lines[side][i][0]`). -/
structure EpiLine where
  a : ℚ
  b : ℚ
  c : ℚ
deriving DecidableEq, Repr

/-- The inputs of the error loop of `StereoCalibrator.check_calibration`
(lines 302-320): per side, the undistorted point array
`undistorted[side]` (`undist s i` is row `i`, an (x, y) pair), the epipolar
line array `lines[side]` (`epilines s i` is row `i`), and the row count
`len(undistorted[side])`.  These arrays are produced by the external OpenCV
primitives `cv2.undistortPoints` and `cv2.computeCorrespondEpilines` from
the store's accumulated `image_points` and the calibration being checked,
and are abstracted here as the loop's inputs. -/
structure CheckData where
  undist : Side → ℕ → ℚ × ℚ
  epilines : Side → ℕ → EpiLine
  lenOf : Side → ℕ

/-- One addend of `total_error` (lines 306-319), with the source's exact
parenthesization: the x term divides by `a_other * a_second`, the y term by
`b_other * b_second`, and the constant term is
`(c_other + c_second) / c_other * c_second` — the product with `c_second`
is outside the division.  `t`, `s`, `o` are the values of `this_side`,
`second_side`, `other_side` at that iteration, `i` the row index. -/
def sideTerm (d : CheckData) (t s o : Side) (i : ℕ) : ℚ :=
  |(d.undist t i).1 *
      (((d.epilines o i).a + (d.epilines s i).a) /
        ((d.epilines o i).a * (d.epilines s i).a)) +
    (d.undist t i).2 *
      (((d.epilines o i).b + (d.epilines s i).b) /
        ((d.epilines o i).b * (d.epilines s i).b)) +
    ((d.epilines o i).c + (d.epilines s i).c) /
      (d.epilines o i).c * (d.epilines s i).c|

/-- The inner loop `for i in range(len(undistorted[side]))` of one outer
iteration: the range is the processed `side`'s row count, while the roles
`(this_side, second_side, other_side) = (t, s, o)` pick which arrays the
term reads. -/
def iterSum (d : CheckData) (side t s o : Side) : ℚ :=
  ∑ i in Finset.range (d.lenOf side), sideTerm d t s o i

/-- The outer loop `for side in sides` of `check_calibration`.  After each
iteration the source executes `other_side, this_side, second_side = sides`,
i.e. it assigns the constant tuple `("left", "center", "right")` to
`(other_side, this_side, second_side)`, so from the second iteration on the
roles are fixed at `(this, second, other) = (center, right, left)`. -/
def checkLoop (d : CheckData) : List Side → Side → Side → Side → ℚ
  | [], _, _, _ => 0
  | side :: rest, t, s, o =>
    iterSum d side t s o +
      checkLoop d rest Side.center Side.right Side.left

/-- `total_error` as accumulated by lines 302-320: the loop starts from
`this_side, second_side, other_side = sides`, i.e. roles
`(left, center, right)`. -/
def totalError (d : CheckData) : ℚ :=
  checkLoop d [Side.left, Side.center, Side.right]
    Side.left Side.center Side.right

/-- `StereoCalibrator.check_calibration` result (lines 321-322):
`total_error / total_points` with
`total_points = self.image_count * len(self.object_points)`. -/
def check_calibration {α : Type} (st : StereoCalibrator α) (d : CheckData) : ℚ :=
  totalError d / ((st.image_count * st.object_points.length : ℕ) : ℚ)

/-- OpenCV termination-criterion flag `cv2.TERM_CRITERIA_MAX_ITER`. -/
def TERM_CRITERIA_MAX_ITER : ℕ := 1

/-- OpenCV termination-criterion flag `cv2.TERM_CRITERIA_EPS`. -/
def TERM_CRITERIA_EPS : ℕ := 2

/-- OpenCV calibration flag `cv2.CALIB_FIX_ASPECT_RATIO`. -/
def CALIB_FIX_ASPECT_RATIO : ℕ := 2

/-- OpenCV calibration flag `cv2.CALIB_ZERO_TANGENT_DIST`. -/
def CALIB_ZERO_TANGENT_DIST : ℕ := 8

/-- OpenCV calibration flag `cv2.CALIB_SAME_FOCAL_LENGTH`. -/
def CALIB_SAME_FOCAL_LENGTH : ℕ := 512

/-- OpenCV array-type flag `cv2.CV_32FC1`. -/
def CV_32FC1 : ℕ := 5

/-- The tuple `cv2.stereoCalibrate(...)[1:]` unpacked on lines 210-213 /
229-232: both camera matrices and distortion arrays, rotation, translation,
essential and fundamental matrices. -/
structure StereoCalibrateResult (β : Type) where
  cm1 : β
  d1 : β
  cm2 : β
  d2 : β
  r : β
  t : β
  e : β
  f : β

/-- The 9-tuple returned by `cv2.rectify3Collinear` unpacked on lines
256-259: three rectification transforms, three projection matrices, the
disparity-to-depth matrix, and valid-pixel boxes for the left and right
cameras only. -/
structure Rectify3Result (β : Type) where
  r1 : β
  r2 : β
  r3 : β
  p1 : β
  p2 : β
  p3 : β
  q : β
  roi1 : β
  roi2 : β

/-- The `(map1, map2)` pair returned by `cv2.initUndistortRectifyMap`. -/
structure RemapMaps (β : Type) where
  map1 : β
  map2 : β

/-- The external OpenCV primitives `calibrate_cameras` calls, as
uninterpreted functions over the abstract blob type `β`.  Argument lists
mirror the call sites in `calibration.py`: `stereoCalibrate` takes the
object points, two image-point lists, the four in/out intrinsics slots, the
image size, the four in/out extrinsics slots, the termination criteria
`(type, max_iter, eps)` and the flag word; `rectify3Collinear` takes the
three intrinsics pairs, left/right image points, image size, the two
relative poses, `alpha`, the new image size and flags;
`findFundamentalMat` takes two image-point lists; `initUndistortRectifyMap`
takes one side's intrinsics, rectification transform, projection matrix,
the image size and the map type flag. -/
structure CvOracle (α β : Type) where
  stereoCalibrate :
    List (List (ℚ × ℚ × ℚ)) → List α → List α →
    Option β → Option β → Option β → Option β → (ℕ × ℕ) →
    Option β → Option β → Option β → Option β →
    (ℕ × ℕ × ℚ) → ℕ → StereoCalibrateResult β
  rectify3Collinear :
    Option β → Option β → Option β → Option β → Option β → Option β →
    List α → List α → (ℕ × ℕ) →
    Option β → Option β → Option β → Option β →
    ℚ → (ℕ × ℕ) → ℕ → Rectify3Result β
  findFundamentalMat : List α → List α → β
  initUndistortRectifyMap :
    Option β → Option β → Option β → Option β → (ℕ × ℕ) → ℕ → RemapMaps β

/-- `StereoCalibrator.calibrate_cameras` (lines 202-279): run
`cv2.stereoCalibrate` on the (left, right) and (left, center) image points
to build `calib13` and `calib12`, assemble `cerberus` from the left/center
intrinsics of `calib12` and the right intrinsics of `calib13`, run
`cv2.rectify3Collinear` (which populates `rect_trans` and `proj_mats` for
all three sides, `disp_to_depth_mat`, and `valid_boxes` for left and right
only), recompute `f_mat` with `cv2.findFundamentalMat`, and fill the two
remap tables per side with `cv2.initUndistortRectifyMap`. -/
def calibrate_cameras {α β : Type} (cv : CvOracle α β)
    (st : StereoCalibrator α) : StereoCalibration β :=
  let criteria : ℕ × ℕ × ℚ :=
    (TERM_CRITERIA_MAX_ITER + TERM_CRITERIA_EPS, 100, 1e-5)
  let flags : ℕ :=
    CALIB_FIX_ASPECT_RATIO + CALIB_ZERO_TANGENT_DIST + CALIB_SAME_FOCAL_LENGTH
  let calib13_0 := emptyCalibration β
  let res13 := cv.stereoCalibrate st.object_points
    st.image_points.left st.image_points.right
    calib13_0.cam_mats.left calib13_0.dist_coefs.left
    calib13_0.cam_mats.right calib13_0.dist_coefs.right
    st.image_size
    calib13_0.rot_mat calib13_0.trans_vec calib13_0.e_mat calib13_0.f_mat
    criteria flags
  let calib13 := { calib13_0 with
    cam_mats := ⟨some res13.cm1, none, some res13.cm2⟩
    dist_coefs := ⟨some res13.d1, none, some res13.d2⟩
    rot_mat := some res13.r
    trans_vec := some res13.t
    e_mat := some res13.e
    f_mat := some res13.f }
  let calib12_0 := emptyCalibration β
  let res12 := cv.stereoCalibrate st.object_points
    st.image_points.left st.image_points.center
    calib12_0.cam_mats.left calib12_0.dist_coefs.left
    calib12_0.cam_mats.center calib12_0.dist_coefs.center
    st.image_size
    calib12_0.rot_mat calib12_0.trans_vec calib12_0.e_mat calib12_0.f_mat
    criteria flags
  let calib12 := { calib12_0 with
    cam_mats := ⟨some res12.cm1, some res12.cm2, none⟩
    dist_coefs := ⟨some res12.d1, some res12.d2, none⟩
    rot_mat := some res12.r
    trans_vec := some res12.t
    e_mat := some res12.e
    f_mat := some res12.f }
  let cerberus0 := emptyCalibration β
  let alpha : ℚ := 0
  let cerberus1 := { cerberus0 with
    cam_mats :=
      ⟨calib12.cam_mats.left, calib12.cam_mats.center, calib13.cam_mats.right⟩
    dist_coefs :=
      ⟨calib12.dist_coefs.left, calib12.dist_coefs.center,
       calib13.dist_coefs.right⟩ }
  let res3 := cv.rectify3Collinear
    cerberus1.cam_mats.left cerberus1.dist_coefs.left
    cerberus1.cam_mats.center cerberus1.dist_coefs.center
    cerberus1.cam_mats.right cerberus1.dist_coefs.right
    st.image_points.left st.image_points.right st.image_size
    calib12.rot_mat calib12.trans_vec calib13.rot_mat calib13.trans_vec
    alpha st.image_size 0
  let cerberus2 := { cerberus1 with
    rect_trans := ⟨some res3.r1, some res3.r2, some res3.r3⟩
    proj_mats := ⟨some res3.p1, some res3.p2, some res3.p3⟩
    disp_to_depth_mat := some res3.q
    valid_boxes := (cerberus1.valid_boxes.set Side.left
      (some res3.roi1)).set Side.right (some res3.roi2) }
  let cerberus3 := { cerberus2 with
    f_mat := some (cv.findFundamentalMat
      st.image_points.left st.image_points.right) }
  List.foldl (fun c cam =>
      let maps := cv.initUndistortRectifyMap
        (c.cam_mats.get cam) (c.dist_coefs.get cam)
        (c.rect_trans.get cam) (c.proj_mats.get cam)
        st.image_size CV_32FC1
      { c with
        undistortion_map := c.undistortion_map.set cam (some maps.map1)
        rectification_map := c.rectification_map.set cam (some maps.map2) })
    cerberus3 [Side.left, Side.center, Side.right]

/-- Modelled from the spec: the total error the spec describes for
`check_calibration`, in which the `(this_side, second_side, other_side)`
roles rotate with the side being processed, so each side's own points are
combined with the epipolar lines of the remaining two sides.  Kept for
comparison with `totalError`, which embeds the source. -/
def totalErrorRotating (d : CheckData) : ℚ :=
  iterSum d Side.left Side.left Side.center Side.right +
    iterSum d Side.center Side.center Side.right Side.left +
    iterSum d Side.right Side.right Side.left Side.center

/-- The per-point term of `check_calibration` is free of division by zero:
every denominator appearing in `sideTerm` with roles
`second_side = s`, `other_side = o` at row `i` is nonzero.  The three
denominators of the source expression are `a_other * a_second`,
`b_other * b_second` and `c_other`; `c_second` is a multiplier, never a
divisor, because of the parenthesization on lines 316-319. -/
def sideTermDefined (d : CheckData) (s o : Side) (i : ℕ) : Prop :=
  (d.epilines o i).a * (d.epilines s i).a ≠ 0 ∧
    (d.epilines o i).b * (d.epilines s i).b ≠ 0 ∧
    (d.epilines o i).c ≠ 0

instance (d : CheckData) (s o : Side) (i : ℕ) :
    Decidable (sideTermDefined d s o i) := by
  unfold sideTermDefined
  infer_instance

/-- Project the state a Python exception left behind out of an
`Except`-modelled call: `some` of the state at the raise, `none` if the
call returned normally. -/
def errState {σ τ : Type} : Except σ τ → Option σ
  | Except.error s => some s
  | Except.ok _ => none

/-- A fresh 2×2-corner calibrator over ℕ-coded images and corner arrays,
used for concrete evaluations. -/
def freshCalibrator : StereoCalibrator ℕ := mkStereoCalibrator ℕ 2 2 1 (4, 4)

/-- A detector that finds a chessboard in every image (the corner array is
coded by the image itself). -/
def detectAlways : ℕ → Option ℕ := fun n => some n

/-- A detector that fails on image `10` (the first image of the example
triple) and succeeds on every other image. -/
def detectFailFirst : ℕ → Option ℕ := fun n => if n = 10 then none else some n

/-- The calibrator state after one `add_corners` call with the example
triple `[10, 20, 30]` in which all three detections succeed. -/
def exCalibratorState : StereoCalibrator ℕ :=
  ((add_corners freshCalibrator detectAlways [10, 20, 30]).toOption).getD
    freshCalibrator

/-- Concrete `check_calibration` loop data: every epipolar line is
`(1, 1, 1)`, the center side's points are at `(1, 0)` and every other
side's at `(0, 0)`, and only the right side has a (single) row. -/
def exCheckData : CheckData where
  undist := fun s _ =>
    match s with
    | Side.center => (1, 0)
    | _ => (0, 0)
  epilines := fun _ _ => ⟨1, 1, 1⟩
  lenOf := fun s =>
    match s with
    | Side.right => 1
    | _ => 0

/-- Concrete `check_calibration` loop data in which the center side's
epipolar lines have `c = 0` while every other coefficient is nonzero. -/
def exNoGuardData : CheckData where
  undist := fun _ _ => (1, 1)
  epilines := fun s _ =>
    match s with
    | Side.center => ⟨1, 1, 0⟩
    | _ => ⟨1, 1, 1⟩
  lenOf := fun _ => 1

/-- An oracle whose outputs are all the unit blob, for concrete evaluation
of `calibrate_cameras`. -/
def exOracle : CvOracle ℕ Unit where
  stereoCalibrate := fun _ _ _ _ _ _ _ _ _ _ _ _ _ _ =>
    ⟨(), (), (), (), (), (), (), ()⟩
  rectify3Collinear := fun _ _ _ _ _ _ _ _ _ _ _ _ _ _ _ _ =>
    ⟨(), (), (), (), (), (), (), (), ()⟩
  findFundamentalMat := fun _ _ => ()
  initUndistortRectifyMap := fun _ _ _ _ _ _ => ⟨(), ()⟩

/-- A calibration over ℕ-coded blobs whose remap tables are populated with
the values 1..6, for concrete evaluation of `rectify`. -/
def exRectCalib : StereoCalibration ℕ :=
  { emptyCalibration ℕ with
    undistortion_map := ⟨some 1, some 2, some 3⟩
    rectification_map := ⟨some 4, some 5, some 6⟩ }

/-- C1: evaluation of `add_corners` at the failing input.  One successful
call on a fresh store with a valid triple (all three chessboards detected)
leaves the object-point list at length 1 but the per-side image-point lists
at lengths 1 (left), 3 (center) and 2 (right), and `image_count` at 3 —
not 1, 1, 1, 1, 1 as the claim requires: the loop body appends the first
image's corners to left and center, and each later image's corners to right
and center, and counts every image. -/
theorem add_corners_one_call_lengths :
    ((add_corners freshCalibrator detectAlways [10, 20, 30]).toOption.map
        fun st =>
      (st.object_points.length, st.image_points.left.length,
        st.image_points.center.length, st.image_points.right.length,
        st.image_count)) = some (1, 1, 3, 2, 3) := by
  decide

/-- C2: evaluation of `add_corners` at the failing input.  On a fresh store
(whose object-point list is empty), a call in which the first image has no
detectable chessboard raises `ChessboardNotFoundError` (the call ends in the
error branch), but the accumulated state is not unchanged: the object-point
list already holds one entry, because `add_corners` appends
`corner_coordinates` before any corner detection runs. -/
theorem add_corners_failed_capture_state :
    ((errState (add_corners freshCalibrator detectFailFirst [10, 20, 30])).map
        fun st =>
      (st.object_points.length, st.image_points.left.length,
        st.image_points.center.length, st.image_points.right.length,
        st.image_count)) = some (1, 0, 0, 0, 0) ∧
      freshCalibrator.object_points.length = 0 := by
  decide

/-- C3 counterexample: the source's `total_error` differs from the value the
claim describes (roles rotating with the processed side, each side's points
against the other two sides' lines) on concrete loop data. -/
theorem totalError_ne_rotating :
    totalError exCheckData ≠ totalErrorRotating exCheckData := by
  simp [totalError, totalErrorRotating, checkLoop, iterSum, exCheckData,
    sideTerm, Finset.sum_range_succ]
  norm_num

/-- C3 (amended): the role tuple `(this_side, second_side, other_side)`
starts at `(left, center, right)` and is reassigned to the constant
`(center, right, left)` after every iteration, so the first iteration
combines left's points with center's and right's lines, while the second
and the third iterations both combine center's points with right's and
left's lines (the third ranging over the right side's row count); the right
side's points are never evaluated.  Each term's absolute value is
accumulated. -/
theorem totalError_roles (d : CheckData) :
    totalError d =
      iterSum d Side.left Side.left Side.center Side.right +
        iterSum d Side.center Side.center Side.right Side.left +
        iterSum d Side.right Side.center Side.right Side.left := by
  simp [totalError, checkLoop, add_assoc]

/-- C4 counterexample: on the state reached by one (all-detections-succeed)
`add_corners` call from a fresh 2×2-corner store, together with concrete
loop data, `check_calibration` does not equal the total error divided by
(number of accumulated captures × corners per capture): the source divides
by `image_count * len(object_points)` = 3 · 1, not by
`len(object_points) · (rows · columns)` = 1 · 4. -/
theorem check_calibration_ne_corner_normalized :
    check_calibration exCalibratorState exCheckData ≠
      totalError exCheckData /
        ((exCalibratorState.object_points.length *
            (exCalibratorState.rows * exCalibratorState.columns) : ℕ) : ℚ) := by
  have hc : exCalibratorState.image_count = 3 := by decide
  have ho : exCalibratorState.object_points.length = 1 := by decide
  have hr : exCalibratorState.rows = 2 := by decide
  have hcol : exCalibratorState.columns = 2 := by decide
  have ht : totalError exCheckData = 4 := by
    simp [totalError, checkLoop, iterSum, exCheckData, sideTerm,
      Finset.sum_range_succ]
    norm_num
  simp [check_calibration, hc, ho, hr, hcol, ht]
  norm_num

/-- C4 (amended): whenever the normalizer is nonzero, `check_calibration`
returns the accumulated total error divided by
`image_count * len(object_points)` — the product of the image counter and
the number of accumulated object-point entries, not the total number of
corners. -/
theorem check_calibration_normalizer {α : Type} (st : StereoCalibrator α)
    (d : CheckData) (h : st.image_count * st.object_points.length ≠ 0) :
    check_calibration st d *
        ((st.image_count * st.object_points.length : ℕ) : ℚ) =
      totalError d := by
  unfold check_calibration
  rw [div_mul_cancel₀]
  exact_mod_cast h

/-- Witness for C4 at the concrete post-`add_corners` state. -/
theorem check_calibration_normalizer_witness :
    exCalibratorState.image_count * exCalibratorState.object_points.length ≠
        0 ∧
      check_calibration exCalibratorState exCheckData *
          ((exCalibratorState.image_count *
              exCalibratorState.object_points.length : ℕ) : ℚ) =
        totalError exCheckData :=
  ⟨by decide,
    check_calibration_normalizer exCalibratorState exCheckData (by decide)⟩

/-- Every iteration's inner sum is nonnegative: each addend is an absolute
value. -/
theorem iterSum_nonneg (d : CheckData) (side t s o : Side) :
    0 ≤ iterSum d side t s o :=
  Finset.sum_nonneg fun _ _ => abs_nonneg _

/-- The outer error loop accumulates a nonnegative total from any starting
roles. -/
theorem checkLoop_nonneg (d : CheckData) :
    ∀ (l : List Side) (t s o : Side), 0 ≤ checkLoop d l t s o
  | [], _, _, _ => le_refl 0
  | side :: rest, t, s, o =>
    add_nonneg (iterSum_nonneg d side t s o)
      (checkLoop_nonneg d rest Side.center Side.right Side.left)

/-- C5: whenever its normalizing count `image_count * len(object_points)`
is strictly positive, `check_calibration` returns a nonnegative value, for
every store state and every undistorted-point / epipolar-line data: the
total error is a sum of absolute values and the normalizer is positive. -/
theorem check_calibration_nonneg {α : Type} (st : StereoCalibrator α)
    (d : CheckData) (h : 0 < st.image_count * st.object_points.length) :
    0 ≤ check_calibration st d := by
  unfold check_calibration
  exact div_nonneg (checkLoop_nonneg d _ _ _ _) (by positivity)

/-- Witness for C5 at the concrete post-`add_corners` state. -/
theorem check_calibration_nonneg_witness :
    0 < exCalibratorState.image_count * exCalibratorState.object_points.length ∧
      0 ≤ check_calibration exCalibratorState exCheckData :=
  ⟨by decide, check_calibration_nonneg exCalibratorState exCheckData (by decide)⟩

/-- C6: loading after exporting reproduces the calibration exactly — every
field, including each per-side entry of the dict-valued fields (and hence
in particular every populated one), is recovered, for every calibration
over any blob type.  Export writes each field under a distinct file name
and load reads the same names back. -/
theorem load_export_roundtrip (β : Type) (c : StereoCalibration β) :
    StereoCalibration.loadFolder (c.export) = some c := by
  rfl

/-- C7 counterexample: the fused calibration returned by
`calibrate_cameras` does not have every per-side field populated — on a
concrete input its center valid-pixel box is `None`, because
`cv2.rectify3Collinear` returns valid boxes for the left and right cameras
only and the center slot is never assigned. -/
theorem calibrate_cameras_center_box_none :
    (calibrate_cameras exOracle freshCalibrator).valid_boxes.center =
      none := by
  decide

/-- C7 (amended): for every store and every oracle, the fused calibration
has camera matrix, distortion coefficients, rectification transform,
projection matrix, undistortion map and rectification map populated for all
three sides, and the valid-pixel box populated for left and right, while
the center valid-pixel box remains `None`. -/
theorem calibrate_cameras_populated {α β : Type} (cv : CvOracle α β)
    (st : StereoCalibrator α) :
    (∀ s : Side,
        ((calibrate_cameras cv st).cam_mats.get s).isSome ∧
          ((calibrate_cameras cv st).dist_coefs.get s).isSome ∧
          ((calibrate_cameras cv st).rect_trans.get s).isSome ∧
          ((calibrate_cameras cv st).proj_mats.get s).isSome ∧
          ((calibrate_cameras cv st).undistortion_map.get s).isSome ∧
          ((calibrate_cameras cv st).rectification_map.get s).isSome) ∧
      ((calibrate_cameras cv st).valid_boxes.left).isSome ∧
        ((calibrate_cameras cv st).valid_boxes.right).isSome ∧
        (calibrate_cameras cv st).valid_boxes.center = none := by
  refine ⟨fun s => ?_, ?_, ?_, ?_⟩ <;>
    first
      | (cases s <;>
          simp [calibrate_cameras, PerSide.get, PerSide.set, emptyCalibration])
      | simp [calibrate_cameras, PerSide.get, PerSide.set, emptyCalibration]

/-- C8: on a triple of input images and populated remap tables, `rectify`
returns exactly three output images, obtained by applying the external
`remap` primitive to each input with the corresponding side's undistortion
and rectification tables, in (left, center, right) order, with the
`cv2.INTER_NEAREST` interpolation flag. -/
theorem rectify_applies_remaps {Image β : Type} (c : StereoCalibration β)
    (remap : Image → β → β → ℕ → Image) (f0 f1 f2 : Image)
    (uL uC uR rL rC rR : β)
    (hu : c.undistortion_map = ⟨some uL, some uC, some uR⟩)
    (hr : c.rectification_map = ⟨some rL, some rC, some rR⟩) :
    c.rectify remap [f0, f1, f2] =
      some [remap f0 uL rL INTER_NEAREST,
        remap f1 uC rC INTER_NEAREST,
        remap f2 uR rR INTER_NEAREST] := by
  simp [StereoCalibration.rectify, rectifyLoop, hu, hr, PerSide.get]

/-- Witness for C8 with ℕ-coded images, the remap tables of `exRectCalib`
and a remapping primitive that sums its arguments. -/
theorem rectify_applies_remaps_witness :
    exRectCalib.rectify (fun f m1 m2 fl => f + m1 + m2 + fl)
        [100, 200, 300] = some [105, 207, 309] :=
  rectify_applies_remaps exRectCalib (fun f m1 m2 fl => f + m1 + m2 + fl)
    100 200 300 1 2 3 4 5 6 rfl rfl

/-- C9 counterexample: the division-by-zero-freeness of the per-point term
does not require the claimed precondition.  With the second side's line
coefficients `(1, 1, 0)` at a used index (row 0 of the first iteration's
roles, `second_side = center`, `other_side = right`), every denominator of
the term is nonzero even though the `c` coefficient of one of the two
combined line sets is zero — `c_second` is only ever a multiplier. -/
theorem sideTermDefined_without_second_c :
    sideTermDefined exNoGuardData Side.center Side.right 0 ∧
      (exNoGuardData.epilines Side.center 0).c = 0 := by
  refine ⟨?_, rfl⟩
  simp [sideTermDefined, exNoGuardData]

/-- C9 (amended): the per-point term of `check_calibration` is free of
division by zero precisely when, at the row in question, the `a` and `b`
coefficients of both combined line sets and the `c` coefficient of the
`other_side` line set are nonzero; the `c` coefficient of the `second_side`
line set is not a divisor and needs no guard. -/
theorem sideTermDefined_iff (d : CheckData) (s o : Side) (i : ℕ) :
    sideTermDefined d s o i ↔
      ((d.epilines o i).a ≠ 0 ∧ (d.epilines s i).a ≠ 0 ∧
        (d.epilines o i).b ≠ 0 ∧ (d.epilines s i).b ≠ 0 ∧
        (d.epilines o i).c ≠ 0) := by
  unfold sideTermDefined
  rw [mul_ne_zero_iff, mul_ne_zero_iff]
  tauto

/-- C10: constructing a `StereoCalibration` with both a calibration object
and an input folder copies the calibration object field for field and
ignores the folder entirely — the result is the same for every folder, so
nothing is loaded from it.  (The constructor's docstring says the opposite;
the code checks `if calibration:` first.) -/
theorem init_calibration_overrides_folder {β : Type}
    (c : StereoCalibration β) (f : Folder β) :
    StereoCalibration.init (some c) (some f) = some c := by
  rfl

end Tricam
